import Mathlib

/-
  Verification of src/server/disease_detection.py (plant-disease detection stub).

  The script decodes a base64 image, resizes/normalizes it, derives a class
  index from a hash of the decimal text of the mean pixel value modulo 38,
  and returns a structured result with plant/disease names, a synthetic
  confidence, advisory text from a small table, and a severity label.

  Shallow embedding: the pure string/arithmetic logic of the script is
  translated directly; calls into external libraries (PIL image decoding,
  numpy array math, the Python built-in string hash) are modelled as fields
  of an environment record `PyEnv`, each returning `Except String` to mirror
  the Python exceptions the script's try/except can catch.  The behaviour of
  `base64.b64decode` (CPython `binascii.a2b_base64`, non-strict mode) is
  modelled concretely because two claims depend on its character-discarding
  behaviour.
-/

namespace DiseaseDetection

/-- Result record returned by `model_prediction`: either the full success
dictionary or the failure dictionary with an error string. -/
inductive PyResult where
  | success (plant disease : String) (confidence : Nat)
      (description prevention treat severity : String)
  | failure (error : String)
  deriving Repr, DecidableEq

/-- Abstract stand-in for a PIL image object (the claims never inspect the
pixel contents, only the data flow through the image pipeline). -/
structure PILImage where
  tag : Nat
  deriving Repr, DecidableEq

/-- Environment of external-library behaviour the script calls into.
Each fallible call returns `Except String` carrying `str(e)` of the Python
exception on failure.  `pyHash` is the Python built-in `hash` on strings,
fixed for the lifetime of one process. -/
structure PyEnv where
  openImage : List Nat → Except String PILImage
  resizeImage : PILImage → Except String PILImage
  convertRGB : PILImage → Except String PILImage
  arrMeanStr : PILImage → Except String String
  pyHash : String → Int

/-- Value of a character in the standard base64 alphabet, none otherwise. -/
def b64Val (c : Char) : Option Nat :=
  if 'A' ≤ c ∧ c ≤ 'Z' then some (c.toNat - 65)
  else if 'a' ≤ c ∧ c ≤ 'z' then some (c.toNat - 97 + 26)
  else if '0' ≤ c ∧ c ≤ '9' then some (c.toNat - 48 + 52)
  else if c = '+' then some 62
  else if c = '/' then some 63
  else none

/-- Core loop of CPython `binascii.a2b_base64` in non-strict mode (the mode
`base64.b64decode` uses when called without `validate=True`): characters
outside the alphabet are silently discarded; a pad sequence that completes a
quad ends decoding; every accepted data character resets the pad counter to
zero, so a pad that did not complete its quad is forgotten; a trailing quad
of 1 data character is an error, of 2 or 3 without sufficient padding is an
"Incorrect padding" error.
State: remaining input, position in the current quad (0-3), accumulated bits
of the current quad, pad characters seen for the current quad, number of
data characters consumed, output bytes in reverse order. -/
def b64decodeAux : List Char → Nat → Nat → Nat → Nat → List Nat →
    Except String (List Nat)
  | [], quadPos, _, _, nData, acc =>
    if quadPos = 0 then Except.ok acc.reverse
    else if quadPos = 1 then
      Except.error ("Invalid base64-encoded string: number of data characters ("
        ++ toString nData ++ ") cannot be 1 more than a multiple of 4")
    else Except.error "Incorrect padding"
  | c :: rest, quadPos, leftchar, pads, nData, acc =>
    if c = '=' then
      if 2 ≤ quadPos then
        if 4 ≤ quadPos + (pads + 1) then
          if quadPos = 2 then Except.ok (acc.reverse ++ [leftchar / 16])
          else Except.ok (acc.reverse ++ [leftchar / 1024, leftchar / 4 % 256])
        else b64decodeAux rest quadPos leftchar (pads + 1) nData acc
      else b64decodeAux rest quadPos leftchar pads nData acc
    else
      match b64Val c with
      | none => b64decodeAux rest quadPos leftchar pads nData acc
      | some v =>
        let lc := leftchar * 64 + v
        if quadPos = 3 then
          b64decodeAux rest 0 0 0 (nData + 1)
            (lc % 256 :: lc / 256 % 256 :: lc / 65536 :: acc)
        else b64decodeAux rest (quadPos + 1) lc 0 (nData + 1) acc

/-- `base64.b64decode(image_data)`: decode after discarding characters that
are not in the standard alphabet. -/
def b64decode (s : String) : Except String (List Nat) :=
  b64decodeAux s.data 0 0 0 0 []

/-- The 38 class names, verbatim from the script. -/
def class_names : List String := [
  "Apple__Apple_scab", "Apple__Black_rot", "Apple__Cedar_apple_rust", "Apple__healthy",
  "Blueberry__healthy", "Cherry__Powdery_mildew", "Cherry__healthy",
  "Corn__Cercospora_leaf_spot", "Corn__Common_rust", "Corn__Northern_Leaf_Blight",
  "Corn__healthy", "Grape__Black_rot", "Grape__Esca", "Grape__Leaf_blight",
  "Grape__healthy", "Orange__Huanglongbing", "Peach__Bacterial_spot", "Peach__healthy",
  "Pepper__Bacterial_spot", "Pepper__healthy", "Potato__Early_blight", "Potato__Late_blight",
  "Potato__healthy", "Raspberry__healthy", "Soybean__healthy", "Squash__Powdery_mildew",
  "Strawberry__Leaf_scorch", "Strawberry__healthy", "Tomato__Bacterial_spot",
  "Tomato__Early_blight", "Tomato__Late_blight", "Tomato__Leaf_Mold",
  "Tomato__Septoria_leaf_spot", "Tomato__Spider_mites", "Tomato__Target_Spot",
  "Tomato__Yellow_Leaf_Curl_Virus", "Tomato__Mosaic_virus", "Tomato__healthy"]

/-- Advisory record: the values of the `disease_info` dictionary. -/
structure DiseaseRec where
  description : String
  prevention : String
  treat : String
  deriving Repr, DecidableEq

/-- The static `disease_info` dictionary, verbatim from the script. -/
def disease_info : List (String × DiseaseRec) := [
  ("Apple scab",
   ⟨"Fungal disease causing olive-green velvety spots on leaves and fruits",
    "Use resistant varieties, ensure good air circulation, apply fungicide sprays",
    "Apply Captan or Mancozeb fungicide, prune infected areas"⟩),
  ("Black rot",
   ⟨"Fungal disease causing black circular lesions on fruits and leaves",
    "Remove infected plant debris, ensure proper spacing, avoid overhead watering",
    "Apply copper-based fungicides, remove infected fruits immediately"⟩),
  ("Late blight",
   ⟨"Devastating fungal disease causing water-soaked spots and plant death",
    "Use resistant varieties, avoid overhead irrigation, ensure good drainage",
    "Apply Metalaxyl or copper-based fungicides, destroy infected plants"⟩),
  ("Early blight",
   ⟨"Fungal disease causing brown concentric rings on older leaves",
    "Rotate crops, avoid overhead watering, maintain plant spacing",
    "Apply Chlorothalonil or Mancozeb fungicide sprays"⟩),
  ("Powdery mildew",
   ⟨"Fungal disease causing white powdery coating on leaves",
    "Ensure good air circulation, avoid overhead watering, plant in sunny locations",
    "Apply sulfur-based fungicides or neem oil"⟩)]

/-- The default record synthesized by `disease_info.get(disease_name, {...})`
when the disease name is absent from the table. -/
def defaultRec (disease_name plant_name : String) : DiseaseRec :=
  ⟨disease_name ++ " affecting " ++ plant_name,
   "Maintain good plant hygiene, use resistant varieties, ensure proper spacing",
   "Consult agricultural extension services for specific treatment recommendations"⟩

/-- Python `dict.get(key, default)` on the association list form of the
dictionary. -/
def dictGet (d : List (String × DiseaseRec)) (key : String) (dflt : DiseaseRec) :
    DiseaseRec :=
  match d.find? (fun p => p.1 == key) with
  | some p => p.2
  | none => dflt

/-- Python list indexing `xs[i]` (for the nonnegative indices the script
uses): `IndexError` out of range. -/
def pyListGet {α : Type} (xs : List α) (i : Nat) : Except String α :=
  match xs[i]? with
  | some x => Except.ok x
  | none => Except.error "list index out of range"

/-- Python `s.split(sep)` on character lists, for a nonempty separator:
split on every non-overlapping occurrence, left to right.  The fuel argument
(initially the length of the input) only makes the recursion structural; it
never runs out because each step consumes at least one character. -/
def pySplitAux (sep : List Char) : Nat → List Char → List Char → List (List Char)
  | _, [], acc => [acc.reverse]
  | 0, cs, acc => [acc.reverse ++ cs]
  | Nat.succ fuel, c :: rest, acc =>
    if sep.isPrefixOf (c :: rest) then
      acc.reverse :: pySplitAux sep fuel (List.drop sep.length (c :: rest)) []
    else
      pySplitAux sep fuel rest (c :: acc)

/-- Python `s.split(sep)` on strings. -/
def pySplit (s sep : String) : List String :=
  (pySplitAux sep.data s.data.length s.data []).map List.asString

/-- Python `s.replace(old, new)` on character lists, for a nonempty pattern:
replace every non-overlapping occurrence, left to right.  Fuel as in
`pySplitAux`. -/
def pyReplaceAux (pat repl : List Char) : Nat → List Char → List Char
  | _, [] => []
  | 0, cs => cs
  | Nat.succ fuel, c :: rest =>
    if pat.isPrefixOf (c :: rest) then
      repl ++ pyReplaceAux pat repl fuel (List.drop pat.length (c :: rest))
    else
      c :: pyReplaceAux pat repl fuel rest

/-- Python `s.replace(old, new)` on strings. -/
def pyReplace (s pat repl : String) : String :=
  (pyReplaceAux pat.data repl.data s.data.length s.data).asString

/-- Python `s.lower()` (ASCII case mapping, which is all the script's
disease names need). -/
def pyLower (s : String) : String :=
  (s.data.map Char.toLower).asString

/-- Python substring test `pat in hay` on character lists. -/
def listHasSub (pat : List Char) : List Char → Bool
  | [] => pat.isEmpty
  | c :: rest => pat.isPrefixOf (c :: rest) || listHasSub pat rest

/-- Python substring test `pat in hay` on strings. -/
def hasSubstr (hay pat : String) : Bool :=
  listHasSub pat.data hay.data

/-- `result_index = hash(...) % 38`: Python `%` with a positive modulus
returns a value in `[0, 38)`, matching `Int.emod`. -/
def result_index_of (hashVal : Int) : Nat :=
  (hashVal % 38).toNat

/-- The tail of the prediction starting from `result_index`: class-name
lookup, split on the double underscore, underscore-to-space replacement,
advisory lookup, confidence and severity computation.  Pure given the
index, so stated separately from the image pipeline. -/
def buildResult (result_index : Nat) : Except String PyResult :=
  (pyListGet class_names result_index).bind fun predicted_class =>
  let parts := pySplit predicted_class "__"
  (pyListGet parts 0).bind fun plant_name =>
  (pyListGet parts 1).bind fun disease_raw =>
  let disease_name := pyReplace disease_raw "_" " "
  let info := dictGet disease_info disease_name (defaultRec disease_name plant_name)
  let confidence := 85 + (result_index % 15)
  let severity := if hasSubstr (pyLower disease_name) "blight" then "High" else "Medium"
  Except.ok (PyResult.success plant_name disease_name confidence
    info.description info.prevention info.treat severity)

/-- The body of the `try` block of `model_prediction`: each fallible step in
sequence, short-circuiting on the first exception. -/
def predictSteps (env : PyEnv) (image_data : String) : Except String PyResult :=
  (b64decode image_data).bind fun image_bytes =>
  (env.openImage image_bytes).bind fun img0 =>
  (env.resizeImage img0).bind fun img1 =>
  (env.convertRGB img1).bind fun img2 =>
  (env.arrMeanStr img2).bind fun meanStr =>
  buildResult (result_index_of (env.pyHash meanStr))

/-- `model_prediction(image_data)`: the try/except wrapper converting any
exception into the uniform failure dictionary. -/
def model_prediction (env : PyEnv) (image_data : String) : PyResult :=
  match predictSteps env image_data with
  | Except.ok r => r
  | Except.error e => PyResult.failure ("Disease detection failed: " ++ e)

/-- The `__main__` block: with an argument, run the prediction and print it;
without, print the fixed failure dictionary.  The script never calls
`sys.exit`, so the process status is 0 on both paths; we model the printed
record and the exit status. -/
def pyMain (env : PyEnv) (argv : List String) : PyResult × Nat :=
  match argv with
  | _ :: image_data :: _ => (model_prediction env image_data, 0)
  | _ => (PyResult.failure "No image data provided", 0)

/-- Spec-side notion of a valid standard base64 string (RFC 4648 §4): a
multiple-of-4 length, alphabet characters only except for at most two
trailing pad characters. -/
def isValidStdB64 (s : String) : Bool :=
  let cs := s.data
  let pads := (cs.reverse.takeWhile (fun c => c == '=')).length
  cs.length % 4 == 0 && pads ≤ 2 &&
    (cs.take (cs.length - pads)).all (fun c => (b64Val c).isSome)

/-- Plant field of the success record built at a given class index. -/
def plantAt (i : Nat) : Option String :=
  match buildResult i with
  | Except.ok (PyResult.success p _ _ _ _ _ _) => some p
  | _ => none

/-- Disease field of the success record built at a given class index. -/
def diseaseAt (i : Nat) : Option String :=
  match buildResult i with
  | Except.ok (PyResult.success _ d _ _ _ _ _) => some d
  | _ => none

/-- Confidence field of the success record built at a given class index. -/
def confidenceAt (i : Nat) : Option Nat :=
  match buildResult i with
  | Except.ok (PyResult.success _ _ c _ _ _ _) => some c
  | _ => none

/-- Severity field of the success record built at a given class index. -/
def severityAt (i : Nat) : Option String :=
  match buildResult i with
  | Except.ok (PyResult.success _ _ _ _ _ _ sv) => some sv
  | _ => none

/-- Description/prevention/treatment triple of the success record built at a
given class index. -/
def infoAt (i : Nat) : Option (String × String × String) :=
  match buildResult i with
  | Except.ok (PyResult.success _ _ _ de pr tr _) => some (de, pr, tr)
  | _ => none

/-- The five disease names the spec lists as having hardcoded advisory
entries. -/
def knownDiseases : List String :=
  ["Apple scab", "Black rot", "Late blight", "Early blight", "Powdery mildew"]

/-- True when the record is the success variant. -/
def isSuccessShape : PyResult → Bool
  | PyResult.success _ _ _ _ _ _ _ => true
  | PyResult.failure _ => false

/-- True when the class index yields an ok success record. -/
def buildOk (i : Nat) : Bool :=
  match buildResult i with
  | Except.ok r => isSuccessShape r
  | Except.error _ => false

/-- A concrete environment used by witnesses: the image pipeline always
succeeds and the hash is the constant 0 (any fixed values work; witnesses
only need one). -/
def okEnv : PyEnv :=
  { openImage := fun _ => Except.ok ⟨0⟩
    resizeImage := fun i => Except.ok i
    convertRGB := fun i => Except.ok i
    arrMeanStr := fun _ => Except.ok "0.5"
    pyHash := fun _ => 0 }

set_option maxRecDepth 10000

/-! ## Helper lemmas (shared; not tied to any single claim) -/

/-- The reduction modulo 38 always lands in `[0, 38)`. -/
theorem result_index_of_lt (hv : Int) : result_index_of hv < 38 := by
  unfold result_index_of
  omega

/-- Indexing within bounds succeeds. -/
theorem pyListGet_ok {α : Type} (xs : List α) (i : Nat) (h : i < xs.length) :
    ∃ x, pyListGet xs i = Except.ok x := by
  unfold pyListGet
  rw [List.getElem?_eq_getElem h]
  exact ⟨xs[i], rfl⟩

/-- Every in-range class index yields an ok success record. -/
theorem buildOk_of_lt : ∀ i, i < 38 → buildOk i = true := by decide

/-- Shape of any ok value of `buildResult`: it is always the success
variant (the only `Except.ok` in the definition wraps one). -/
theorem buildResult_ok_shape (i : Nat) (r : PyResult)
    (h : buildResult i = Except.ok r) :
    ∃ p d c de pr tr sv, r = PyResult.success p d c de pr tr sv := by
  unfold buildResult at h
  cases h1 : pyListGet class_names i with
  | error e => rw [h1] at h; simp [Except.bind] at h
  | ok pc =>
    rw [h1] at h
    simp only [Except.bind] at h
    cases h2 : pyListGet (pySplit pc "__") 0 with
    | error e => rw [h2] at h; simp [Except.bind] at h
    | ok pl =>
      rw [h2] at h
      simp only [Except.bind] at h
      cases h3 : pyListGet (pySplit pc "__") 1 with
      | error e => rw [h3] at h; simp [Except.bind] at h
      | ok dr =>
        rw [h3] at h
        simp only [Except.bind] at h
        exact ⟨_, _, _, _, _, _, _, (Except.ok.inj h).symm⟩

/-- In-range class indices produce a full success record. -/
theorem buildResult_success_of_lt (i : Nat) (h : i < 38) :
    ∃ p d c de pr tr sv,
      buildResult i = Except.ok (PyResult.success p d c de pr tr sv) := by
  have hb := buildOk_of_lt i h
  unfold buildOk at hb
  cases hbr : buildResult i with
  | error e => rw [hbr] at hb; simp at hb
  | ok r =>
    rw [hbr] at hb
    cases r with
    | success p d c de pr tr sv => exact ⟨p, d, c, de, pr, tr, sv, rfl⟩
    | failure e => simp [isSuccessShape] at hb

/-- Shape of any ok value of the full pipeline. -/
theorem predictSteps_ok_shape (env : PyEnv) (s : String) (r : PyResult)
    (h : predictSteps env s = Except.ok r) :
    ∃ p d c de pr tr sv, r = PyResult.success p d c de pr tr sv := by
  unfold predictSteps at h
  cases h1 : b64decode s with
  | error e => rw [h1] at h; simp [Except.bind] at h
  | ok bs =>
    rw [h1] at h
    simp only [Except.bind] at h
    cases h2 : env.openImage bs with
    | error e => rw [h2] at h; simp [Except.bind] at h
    | ok i0 =>
      rw [h2] at h
      simp only [Except.bind] at h
      cases h3 : env.resizeImage i0 with
      | error e => rw [h3] at h; simp [Except.bind] at h
      | ok i1 =>
        rw [h3] at h
        simp only [Except.bind] at h
        cases h4 : env.convertRGB i1 with
        | error e => rw [h4] at h; simp [Except.bind] at h
        | ok i2 =>
          rw [h4] at h
          simp only [Except.bind] at h
          cases h5 : env.arrMeanStr i2 with
          | error e => rw [h5] at h; simp [Except.bind] at h
          | ok m =>
            rw [h5] at h
            simp only [Except.bind] at h
            exact buildResult_ok_shape _ _ h

/-! ## Claims -/

/-- C1: Prediction is deterministic.  For identical input strings, two runs
of the prediction — under library environments that agree on the image
pipeline and on the string hash (as they do within one process, where the
class index is derived from a fixed hash of the decimal text of the mean
pixel value) — yield identical `Result` output in every field. -/
theorem c1_prediction_deterministic (env1 env2 : PyEnv) (s t : String)
    (hst : s = t)
    (ho : env1.openImage = env2.openImage)
    (hr : env1.resizeImage = env2.resizeImage)
    (hc : env1.convertRGB = env2.convertRGB)
    (hm : env1.arrMeanStr = env2.arrMeanStr)
    (hh : env1.pyHash = env2.pyHash) :
    model_prediction env1 s = model_prediction env2 t := by
  cases env1
  cases env2
  simp only at ho hr hc hm hh
  subst hst ho hr hc hm hh
  rfl

/-- Witness for C1 at a concrete environment and input. -/
theorem c1_witness :
    model_prediction okEnv "QQ==" = model_prediction okEnv "QQ==" :=
  c1_prediction_deterministic okEnv okEnv "QQ==" "QQ==" rfl rfl rfl rfl rfl rfl

/-- C2: every exception raised during the prediction steps is caught and
converted to exactly the failure record with message
"Disease detection failed: " followed by the original message; the function
is total and an ok outcome is always the complete success record, never a
partial one. -/
theorem c2_errors_caught (env : PyEnv) (s : String) :
    (∃ p d c de pr tr sv,
      model_prediction env s = PyResult.success p d c de pr tr sv) ∨
    (∃ msg,
      model_prediction env s = PyResult.failure ("Disease detection failed: " ++ msg)) := by
  cases hp : predictSteps env s with
  | ok r =>
    left
    obtain ⟨p, d, c, de, pr, tr, sv, hr⟩ := predictSteps_ok_shape env s r hp
    exact ⟨p, d, c, de, pr, tr, sv, by unfold model_prediction; rw [hp, hr]⟩
  | error e =>
    right
    exact ⟨e, by unfold model_prediction; rw [hp]⟩

/-- C3: for every class index below 38, the plant part, the separator and
the disease part with spaces turned back into underscores reconstruct the
original class-name string exactly. -/
theorem c3_split_roundtrip : ∀ i, i < 38 →
    ((plantAt i).getD "") ++ "__" ++ (pyReplace ((diseaseAt i).getD "") " " "_")
      = class_names.getD i "" := by decide

/-- Witness for C3 at index 0. -/
theorem c3_witness :
    (0 < 38) ∧
    ((plantAt 0).getD "") ++ "__" ++ (pyReplace ((diseaseAt 0).getD "") " " "_")
      = class_names.getD 0 "" :=
  ⟨by decide, c3_split_roundtrip 0 (by decide)⟩

/-- C4: for all 38 possible class indices, the confidence equals
85 + (index mod 15) and lies in [85, 99]. -/
theorem c4_confidence : ∀ i, i < 38 →
    confidenceAt i = some (85 + i % 15) ∧
    85 ≤ (confidenceAt i).getD 0 ∧ (confidenceAt i).getD 0 ≤ 99 := by decide

/-- Witness for C4 at index 20. -/
theorem c4_witness :
    (20 < 38) ∧
    (confidenceAt 20 = some (85 + 20 % 15) ∧
     85 ≤ (confidenceAt 20).getD 0 ∧ (confidenceAt 20).getD 0 ≤ 99) :=
  ⟨by decide, c4_confidence 20 (by decide)⟩

/-- C5: for every successful prediction (every class index below 38), the
severity is "High" exactly when the lowercase disease name contains the
substring "blight", and "Medium" otherwise. -/
theorem c5_severity : ∀ i, i < 38 →
    severityAt i = some (if hasSubstr (pyLower ((diseaseAt i).getD "")) "blight"
      then "High" else "Medium") ∧
    (severityAt i = some "High" ↔
      hasSubstr (pyLower ((diseaseAt i).getD "")) "blight" = true) := by decide

/-- Witness for C5 at index 21 (Potato Late blight, severity High). -/
theorem c5_witness :
    (21 < 38) ∧
    (severityAt 21 = some (if hasSubstr (pyLower ((diseaseAt 21).getD "")) "blight"
       then "High" else "Medium") ∧
     (severityAt 21 = some "High" ↔
       hasSubstr (pyLower ((diseaseAt 21).getD "")) "blight" = true)) :=
  ⟨by decide, c5_severity 21 (by decide)⟩

/-- C6: for every class index below 38, if the disease name is one of the
five with hardcoded entries then the result carries exactly the table's
description/prevention/treatment triple for that name (the lookup being
case-sensitive and exact), and otherwise the result carries the synthesized
fallback whose description embeds the disease and plant names verbatim. -/
theorem c6_disease_info : ∀ i, i < 38 →
    if (diseaseAt i).getD "" ∈ knownDiseases then
      (disease_info.find? (fun q => q.1 == (diseaseAt i).getD "")).map
        (fun q => (q.2.description, q.2.prevention, q.2.treat)) = infoAt i
    else
      infoAt i = some ((diseaseAt i).getD "" ++ " affecting " ++ (plantAt i).getD "",
        "Maintain good plant hygiene, use resistant varieties, ensure proper spacing",
        "Consult agricultural extension services for specific treatment recommendations") := by
  decide

/-- Witness for C6 at index 0 (Apple scab, a hardcoded entry). -/
theorem c6_witness :
    (0 < 38) ∧
    (if (diseaseAt 0).getD "" ∈ knownDiseases then
      (disease_info.find? (fun q => q.1 == (diseaseAt 0).getD "")).map
        (fun q => (q.2.description, q.2.prevention, q.2.treat)) = infoAt 0
    else
      infoAt 0 = some ((diseaseAt 0).getD "" ++ " affecting " ++ (plantAt 0).getD "",
        "Maintain good plant hygiene, use resistant varieties, ensure proper spacing",
        "Consult agricultural extension services for specific treatment recommendations")) :=
  ⟨by decide, c6_disease_info 0 (by decide)⟩

/-- C7: for every hash value, the class index (the hash reduced modulo 38,
nonnegative under Python semantics) is in [0, 38), so indexing the 38-entry
class-name list succeeds and the defensive lookup-error case is
unreachable. -/
theorem c7_index_in_range (hv : Int) :
    result_index_of hv < 38 ∧
    ∃ name, pyListGet class_names (result_index_of hv) = Except.ok name := by
  refine ⟨result_index_of_lt hv, ?_⟩
  have hlen : class_names.length = 38 := rfl
  exact pyListGet_ok class_names _ (by rw [hlen]; exact result_index_of_lt hv)

/-- C9: invoked with no image-data argument (an argument vector holding only
the script name), the process prints exactly the failure record with error
"No image data provided" and exits with status 0; the output does not
depend on the prediction environment, i.e. predict is not called. -/
theorem c9_no_argument (env : PyEnv) (scriptName : String) :
    pyMain env [scriptName] = (PyResult.failure "No image data provided", 0) ∧
    ∀ env2 : PyEnv, pyMain env [scriptName] = pyMain env2 [scriptName] :=
  ⟨rfl, fun _ => rfl⟩

/-- C10: there are input strings that are not valid standard base64 on which
the decode step nonetheless succeeds, because characters outside the base64
alphabet are silently discarded ("QUJD!" decodes to the bytes of "ABC");
such an input produces a success result whenever the remaining characters
decode to a supported image. -/
theorem c10_lenient_decode :
    isValidStdB64 "QUJD!" = false ∧
    b64decode "QUJD!" = Except.ok [65, 66, 67] ∧
    ∀ (env : PyEnv) (i0 i1 i2 : PILImage) (m : String),
      env.openImage [65, 66, 67] = Except.ok i0 →
      env.resizeImage i0 = Except.ok i1 →
      env.convertRGB i1 = Except.ok i2 →
      env.arrMeanStr i2 = Except.ok m →
      ∃ p d c de pr tr sv,
        model_prediction env "QUJD!" = PyResult.success p d c de pr tr sv := by
  refine ⟨rfl, rfl, ?_⟩
  intro env i0 i1 i2 m h1 h2 h3 h4
  have hb : b64decode "QUJD!" = Except.ok [65, 66, 67] := rfl
  have hps : predictSteps env "QUJD!"
      = buildResult (result_index_of (env.pyHash m)) := by
    unfold predictSteps
    rw [hb]
    simp only [Except.bind]
    rw [h1]
    simp only [Except.bind]
    rw [h2]
    simp only [Except.bind]
    rw [h3]
    simp only [Except.bind]
    rw [h4]
  obtain ⟨p, d, c, de, pr, tr, sv, hbr⟩ :=
    buildResult_success_of_lt _ (result_index_of_lt (env.pyHash m))
  exact ⟨p, d, c, de, pr, tr, sv, by unfold model_prediction; rw [hps, hbr]⟩

/-- Witness for C10 under the concrete always-succeeding environment. -/
theorem c10_witness :
    ∃ p d c de pr tr sv,
      model_prediction okEnv "QUJD!" = PyResult.success p d c de pr tr sv :=
  c10_lenient_decode.2.2 okEnv ⟨0⟩ ⟨0⟩ ⟨0⟩ "0.5" rfl rfl rfl rfl

end DiseaseDetection
